import Mathlib

/-!
Verification of the controller startup configuration-resolution layer of
cert-manager (cmd/controller/app/start.go): the two-phase flag/file merge
protocol implemented by loadConfigFromFile, the RunE action wiring it to the
run loop, and the newServerCommand constructor.

Modelling choices:
* The ControllerConfiguration aggregate is modelled as a total map from field
  names to string values (every Go struct field always holds some value).
* External collaborators that live outside this file of the repository
  (filepath.Abs, configfile.NewConfigurationFSLoader, loader.Load,
  cobra Root().Find, the scheme defaults) are modelled as oracle functions
  carried in a MergeInput record; the merge algorithm itself is transcribed
  statement by statement from loadConfigFromFile.
* pflag semantics: parsing applies exactly the flags present in the argument
  vector, left to right; a flag absent from the argument vector is never
  touched by a parse; an unknown flag aborts the parse, with the flags
  already seen applied.
* Each step of the merge emits an event paired with the state of the live
  configuration object after that step, so temporal claims are statements
  about the emitted trace.
-/

/-- A ControllerConfiguration: a total assignment of a value to every field. -/
def Config : Type := String → String

/-- Write one field of the live configuration object (one flag binding firing). -/
def setField (cfg : Config) (kv : String × String) : Config :=
  fun f => if f = kv.1 then kv.2 else cfg f

/-- Apply a list of explicit field assignments, in order, over a configuration.
Used both for decoding a configuration document over scheme defaults and for
applying the explicitly-typed flags of an argument vector. -/
def applyFields (cfg : Config) (doc : List (String × String)) : Config :=
  doc.foldl setField cfg

/-- The last explicit assignment to a field in a list of assignments. -/
def lookupLast : List (String × String) → String → Option String
  | [], _ => none
  | kv :: rest, f =>
    match lookupLast rest f with
    | some v => some v
    | none => if kv.1 = f then some kv.2 else none

/-- pflag parsing: flags are applied left to right as they are parsed; an
unknown flag aborts parsing with an error, leaving the flags already seen
applied to the configuration. -/
def parseFlags (known : String → Bool) :
    Config → List (String × String) → Except String Unit × Config
  | cfg, [] => (Except.ok (), cfg)
  | cfg, kv :: rest =>
    if known kv.1 then parseFlags known (setField cfg kv) rest
    else (Except.error ("unknown flag: " ++ kv.1), cfg)

/-- DeepCopyInto: the source object fully replaces the destination object,
field by field; nothing of the destination survives. -/
def deepCopyInto (src _dst : Config) : Config := src

/-- Steps of the merge observable from outside, each recorded together with
the state of the live configuration object at that point. -/
inductive Event
  | evValidate
  | evAbs
  | evNewLoader
  | evLoadFile
  | evDeepCopy
  | evFind
  | evParseFlags
  | evRun
deriving DecidableEq, Repr

/-- Inputs of the merge: the argument vector (as explicit flag assignments),
the config-file path, and the oracle functions standing for the external
collaborators used by loadConfigFromFile. -/
structure MergeInput where
  allArgs : List (String × String)
  configFilePath : String
  defaults : Config
  knownFlag : String → Bool
  absPath : String → Except String String
  newLoader : String → Except String Unit
  loadFile : String → Except String (List (String × String))
  findRoot : List (String × String) → Except String (List (String × String))
  validate : Config → Except String Unit

/-- The wrapping applied to path-resolution, loader-construction and
file-load errors: fmt.Errorf with the config file path and the cause. -/
def fileLoadMsg (path cause : String) : String :=
  "failed to load config file " ++ path ++ ", error " ++ cause

/-- The wrapping applied to Find and ParseFlags errors. -/
def reparseMsg (cause : String) : String :=
  "failed to re-parse flags: " ++ cause

/-- The body of the if-statement guarding on a non-empty config file path:
resolve the path, build the loader, load the file into a freshly defaulted
object, deep-copy it over the live object, re-parse the flags, and run the
validation callback a second time.  Returns the error status, the final
state of the live configuration object, and the trace of steps taken. -/
def filePhase (inp : MergeInput) (cfg : Config) :
    Except String Unit × Config × List (Event × Config) :=
  match inp.absPath inp.configFilePath with
  | Except.error e =>
    (Except.error (fileLoadMsg inp.configFilePath e), cfg, [(Event.evAbs, cfg)])
  | Except.ok controllerConfigFile =>
    match inp.newLoader controllerConfigFile with
    | Except.error e =>
      (Except.error (fileLoadMsg inp.configFilePath e), cfg,
        [(Event.evAbs, cfg), (Event.evNewLoader, cfg)])
    | Except.ok _ =>
      match inp.loadFile controllerConfigFile with
      | Except.error e =>
        (Except.error (fileLoadMsg inp.configFilePath e), cfg,
          [(Event.evAbs, cfg), (Event.evNewLoader, cfg), (Event.evLoadFile, cfg)])
      | Except.ok doc =>
        let cfg1 := deepCopyInto (applyFields inp.defaults doc) cfg
        match inp.findRoot inp.allArgs with
        | Except.error e =>
          (Except.error (reparseMsg e), cfg1,
            [(Event.evAbs, cfg), (Event.evNewLoader, cfg), (Event.evLoadFile, cfg),
              (Event.evDeepCopy, cfg1), (Event.evFind, cfg1)])
        | Except.ok args =>
          match parseFlags inp.knownFlag cfg1 args with
          | (Except.error e, cfg2) =>
            (Except.error (reparseMsg e), cfg2,
              [(Event.evAbs, cfg), (Event.evNewLoader, cfg), (Event.evLoadFile, cfg),
                (Event.evDeepCopy, cfg1), (Event.evFind, cfg1), (Event.evParseFlags, cfg2)])
          | (Except.ok _, cfg2) =>
            match inp.validate cfg2 with
            | Except.error e =>
              (Except.error e, cfg2,
                [(Event.evAbs, cfg), (Event.evNewLoader, cfg), (Event.evLoadFile, cfg),
                  (Event.evDeepCopy, cfg1), (Event.evFind, cfg1), (Event.evParseFlags, cfg2),
                  (Event.evValidate, cfg2)])
            | Except.ok _ =>
              (Except.ok (), cfg2,
                [(Event.evAbs, cfg), (Event.evNewLoader, cfg), (Event.evLoadFile, cfg),
                  (Event.evDeepCopy, cfg1), (Event.evFind, cfg1), (Event.evParseFlags, cfg2),
                  (Event.evValidate, cfg2)])

/-- loadConfigFromFile: run the validation callback (phase A); if a config
file path was given, run the file phase. -/
def loadConfigFromFile (inp : MergeInput) (cfg : Config) :
    Except String Unit × Config × List (Event × Config) :=
  match inp.validate cfg with
  | Except.error e => (Except.error e, cfg, [(Event.evValidate, cfg)])
  | Except.ok _ =>
    if inp.configFilePath.length > 0 then
      let r := filePhase inp cfg
      (r.1, r.2.1, (Event.evValidate, cfg) :: r.2.2)
    else
      (Except.ok (), cfg, [(Event.evValidate, cfg)])

/-- The RunE action of the command: run loadConfigFromFile, return its error
if any, otherwise hand the resolved configuration to the run loop. -/
def runE (inp : MergeInput) (runLoop : Config → Except String Unit) (cfg : Config) :
    Except String Unit × Config × List (Event × Config) :=
  match loadConfigFromFile inp cfg with
  | (Except.error e, c, t) => (Except.error e, c, t)
  | (Except.ok _, c, t) => (runLoop c, c, t ++ [(Event.evRun, c)])

/-- Setup steps of newServerCommand, in program order. -/
inductive SetupStep
  | stepNewFlags
  | stepNewConfig
  | stepLogError
  | stepAddFlags
  | stepAddConfigFlags
  | stepSetArgs
deriving DecidableEq, Repr

/-- Outcome of newServerCommand: either the process was terminated via
os.Exit, or a command object was built and returned.  There is no error
channel: the constructor cannot propagate an error normally. -/
inductive CommandOutcome
  | exitedProcess (code : Nat)
  | commandBuilt (cfg : Config)

/-- newServerCommand: build the flags, build the default configuration; on
failure log the error and exit the process with status 1; on success build
the command object, register the flags and set the argument vector. -/
def newServerCommand (newConfig : Except String Config) :
    CommandOutcome × List SetupStep :=
  match newConfig with
  | Except.error _ =>
    (CommandOutcome.exitedProcess 1,
      [SetupStep.stepNewFlags, SetupStep.stepNewConfig, SetupStep.stepLogError])
  | Except.ok cfg =>
    (CommandOutcome.commandBuilt cfg,
      [SetupStep.stepNewFlags, SetupStep.stepNewConfig, SetupStep.stepAddFlags,
        SetupStep.stepAddConfigFlags, SetupStep.stepSetArgs])

/-! Basic lemmas about field application and flag parsing. -/

theorem applyFields_eq_lookupLast (doc : List (String × String)) (cfg : Config)
    (f : String) : applyFields cfg doc f = (lookupLast doc f).getD (cfg f) := by
  induction doc generalizing cfg with
  | nil => rfl
  | cons kv rest ih =>
    show applyFields (setField cfg kv) rest f = _
    rw [ih]
    cases h : lookupLast rest f with
    | some v => simp [lookupLast, h]
    | none =>
      simp only [lookupLast, h, Option.getD, setField]
      by_cases hf : kv.1 = f
      · subst hf; simp
      · have hf' : ¬ f = kv.1 := fun hh => hf hh.symm
        simp [hf, hf']

theorem parseFlags_ok_of_known (known : String → Bool)
    (args : List (String × String)) (cfg : Config)
    (h : ∀ kv ∈ args, known kv.1 = true) :
    parseFlags known cfg args = (Except.ok (), applyFields cfg args) := by
  induction args generalizing cfg with
  | nil => rfl
  | cons kv rest ih =>
    have hk : known kv.1 = true := h kv (List.mem_cons_self kv rest)
    show (if known kv.1 then parseFlags known (setField cfg kv) rest
      else (Except.error ("unknown flag: " ++ kv.1), cfg)) = _
    rw [hk, if_pos rfl]
    exact ih (setField cfg kv) (fun kv2 h2 => h kv2 (List.mem_cons_of_mem kv h2))

theorem parseFlags_state (known : String → Bool) (args : List (String × String))
    (cfg : Config) :
    (parseFlags known cfg args).2 =
      applyFields cfg (args.takeWhile (fun kv => known kv.1)) := by
  induction args generalizing cfg with
  | nil => rfl
  | cons kv rest ih =>
    by_cases hk : known kv.1 = true
    · show (if known kv.1 then parseFlags known (setField cfg kv) rest
        else (Except.error ("unknown flag: " ++ kv.1), cfg)).2 = _
      rw [hk, if_pos rfl, ih]
      simp [List.takeWhile, hk, applyFields]
    · have hk' : known kv.1 = false := by
        cases hkk : known kv.1
        · rfl
        · exact absurd hkk hk
      show (if known kv.1 then parseFlags known (setField cfg kv) rest
        else (Except.error ("unknown flag: " ++ kv.1), cfg)).2 = _
      rw [hk', if_neg (by simp)]
      simp [List.takeWhile, hk', applyFields]

/-! Reduction lemmas for the success path of the merge. -/

theorem filePhase_success (inp : MergeInput) (cfg : Config) (p : String)
    (doc args : List (String × String))
    (habs : inp.absPath inp.configFilePath = Except.ok p)
    (hnl : inp.newLoader p = Except.ok ())
    (hlf : inp.loadFile p = Except.ok doc)
    (hfr : inp.findRoot inp.allArgs = Except.ok args)
    (hknown : ∀ kv ∈ args, inp.knownFlag kv.1 = true) :
    filePhase inp cfg =
      ((match inp.validate (applyFields (applyFields inp.defaults doc) args) with
        | Except.error e => Except.error e
        | Except.ok _ => Except.ok ()),
        applyFields (applyFields inp.defaults doc) args,
        [(Event.evAbs, cfg), (Event.evNewLoader, cfg), (Event.evLoadFile, cfg),
          (Event.evDeepCopy, applyFields inp.defaults doc),
          (Event.evFind, applyFields inp.defaults doc),
          (Event.evParseFlags, applyFields (applyFields inp.defaults doc) args),
          (Event.evValidate, applyFields (applyFields inp.defaults doc) args)]) := by
  simp only [filePhase, habs, hnl, hlf, hfr, deepCopyInto,
    parseFlags_ok_of_known inp.knownFlag args _ hknown]
  cases hv : inp.validate (applyFields (applyFields inp.defaults doc) args) <;> simp

theorem loadConfig_file_success (inp : MergeInput) (cfg : Config) (p : String)
    (doc args : List (String × String))
    (hpath : inp.configFilePath.length > 0)
    (hv0 : inp.validate cfg = Except.ok ())
    (habs : inp.absPath inp.configFilePath = Except.ok p)
    (hnl : inp.newLoader p = Except.ok ())
    (hlf : inp.loadFile p = Except.ok doc)
    (hfr : inp.findRoot inp.allArgs = Except.ok args)
    (hknown : ∀ kv ∈ args, inp.knownFlag kv.1 = true) :
    loadConfigFromFile inp cfg =
      ((match inp.validate (applyFields (applyFields inp.defaults doc) args) with
        | Except.error e => Except.error e
        | Except.ok _ => Except.ok ()),
        applyFields (applyFields inp.defaults doc) args,
        [(Event.evValidate, cfg),
          (Event.evAbs, cfg), (Event.evNewLoader, cfg), (Event.evLoadFile, cfg),
          (Event.evDeepCopy, applyFields inp.defaults doc),
          (Event.evFind, applyFields inp.defaults doc),
          (Event.evParseFlags, applyFields (applyFields inp.defaults doc) args),
          (Event.evValidate, applyFields (applyFields inp.defaults doc) args)]) := by
  simp only [loadConfigFromFile, hv0, if_pos hpath,
    filePhase_success inp cfg p doc args habs hnl hlf hfr hknown]

/-! Sample inputs used to exercise the theorems on concrete data. -/

def sampleDoc : List (String × String) :=
  [("leader-elect", "false"), ("log-level", "2")]

def sampleArgs : List (String × String) :=
  [("leader-elect", "true")]

def sampleInput : MergeInput :=
  { allArgs := sampleArgs
    configFilePath := "cfg.yaml"
    defaults := fun _ => "default"
    knownFlag := fun _ => true
    absPath := fun s => Except.ok ("/work/" ++ s)
    newLoader := fun _ => Except.ok ()
    loadFile := fun _ => Except.ok sampleDoc
    findRoot := fun l => Except.ok l
    validate := fun _ => Except.ok () }

def emptyPathInput : MergeInput :=
  { sampleInput with configFilePath := "" }

def emptyCfg : Config := fun _ => "unset"

/-- Claim C1: when a configuration field is explicitly present both in the
configuration file and in the argument vector, the merge resolves it to the
flag value: the re-parse after the file overlay re-applies every explicitly
supplied flag, so command-line flags win over file values. -/
theorem c1_flags_win (inp : MergeInput) (cfg : Config) (p : String)
    (doc : List (String × String)) (f v : String)
    (hpath : inp.configFilePath.length > 0)
    (hv0 : inp.validate cfg = Except.ok ())
    (habs : inp.absPath inp.configFilePath = Except.ok p)
    (hnl : inp.newLoader p = Except.ok ())
    (hlf : inp.loadFile p = Except.ok doc)
    (hfr : inp.findRoot inp.allArgs = Except.ok inp.allArgs)
    (hknown : ∀ kv ∈ inp.allArgs, inp.knownFlag kv.1 = true)
    (hinF : lookupLast doc f ≠ none)
    (hinS : lookupLast inp.allArgs f = some v) :
    (loadConfigFromFile inp cfg).2.1 f = v := by
  rw [loadConfig_file_success inp cfg p doc inp.allArgs hpath hv0 habs hnl hlf hfr hknown]
  show applyFields (applyFields inp.defaults doc) inp.allArgs f = v
  rw [applyFields_eq_lookupLast, hinS]
  rfl

/-- Claim C1 exercised on concrete data: leader-elect is false in the file,
true on the command line, and resolves to true. -/
theorem c1_flags_win_witness :
    lookupLast sampleDoc "leader-elect" ≠ none ∧
    lookupLast sampleArgs "leader-elect" = some "true" ∧
    (loadConfigFromFile sampleInput emptyCfg).2.1 "leader-elect" = "true" := by
  refine ⟨by decide, by decide, ?_⟩
  exact c1_flags_win sampleInput emptyCfg ("/work/cfg.yaml") sampleDoc
    ("leader-elect") ("true") (by decide) rfl rfl rfl rfl rfl
    (fun kv _ => rfl) (by decide) (by decide)

/-- Claim C2: when a field is present in the configuration file and absent
from the argument vector, the resolved value is the file value: the flag
re-parse does not overwrite a file-supplied field with the flag default when
the flag was not supplied on the command line. -/
theorem c2_file_value_kept (inp : MergeInput) (cfg : Config) (p : String)
    (doc : List (String × String)) (f v : String)
    (hpath : inp.configFilePath.length > 0)
    (hv0 : inp.validate cfg = Except.ok ())
    (habs : inp.absPath inp.configFilePath = Except.ok p)
    (hnl : inp.newLoader p = Except.ok ())
    (hlf : inp.loadFile p = Except.ok doc)
    (hfr : inp.findRoot inp.allArgs = Except.ok inp.allArgs)
    (hknown : ∀ kv ∈ inp.allArgs, inp.knownFlag kv.1 = true)
    (hinS : lookupLast inp.allArgs f = none)
    (hinF : lookupLast doc f = some v) :
    (loadConfigFromFile inp cfg).2.1 f = v := by
  rw [loadConfig_file_success inp cfg p doc inp.allArgs hpath hv0 habs hnl hlf hfr hknown]
  show applyFields (applyFields inp.defaults doc) inp.allArgs f = v
  rw [applyFields_eq_lookupLast, hinS]
  show applyFields inp.defaults doc f = v
  rw [applyFields_eq_lookupLast, hinF]
  rfl

/-- Claim C2 exercised on concrete data: log-level is 2 in the file, absent
from the command line, and resolves to 2. -/
theorem c2_file_value_kept_witness :
    lookupLast sampleArgs "log-level" = none ∧
    lookupLast sampleDoc "log-level" = some "2" ∧
    (loadConfigFromFile sampleInput emptyCfg).2.1 "log-level" = "2" := by
  refine ⟨by decide, by decide, ?_⟩
  exact c2_file_value_kept sampleInput emptyCfg ("/work/cfg.yaml") sampleDoc
    ("log-level") ("2") (by decide) rfl rfl rfl rfl rfl
    (fun kv _ => rfl) (by decide) (by decide)

/-- Claim C3: with an empty config-file path the merge returns success right
after the phase-A validation callback: no path resolution, no file access,
no mutation of the live configuration object, and the result is exactly the
configuration produced by phase-1 flag parsing. -/
theorem c3_empty_path_noop (inp : MergeInput) (cfg : Config)
    (hempty : inp.configFilePath = "")
    (hv0 : inp.validate cfg = Except.ok ()) :
    loadConfigFromFile inp cfg = (Except.ok (), cfg, [(Event.evValidate, cfg)]) := by
  simp only [loadConfigFromFile, hv0]
  rw [if_neg]
  rw [hempty]
  decide

/-- Claim C3 exercised on concrete data: empty path, the live object and the
trace are untouched apart from the phase-A validation. -/
theorem c3_empty_path_noop_witness :
    loadConfigFromFile emptyPathInput emptyCfg =
      (Except.ok (), emptyCfg, [(Event.evValidate, emptyCfg)]) :=
  c3_empty_path_noop emptyPathInput emptyCfg rfl rfl

/-! Trace-shape lemmas: the validation callback is always the first step of
the merge and is not run again before path resolution; the run-loop event
never appears inside the merge itself. -/

theorem validate_not_before_abs (inp : MergeInput) (cfg : Config) :
    Event.evValidate ∉
      (((filePhase inp cfg).2.2).map Prod.fst).takeWhile
        (fun ev => ev != Event.evAbs) := by
  cases habs : inp.absPath inp.configFilePath with
  | error e => simp [filePhase, habs]
  | ok p =>
    cases hnl : inp.newLoader p with
    | error e => simp [filePhase, habs, hnl]
    | ok u =>
      cases hlf : inp.loadFile p with
      | error e => simp [filePhase, habs, hnl, hlf]
      | ok doc =>
        cases hfr : inp.findRoot inp.allArgs with
        | error e => simp [filePhase, habs, hnl, hlf, hfr]
        | ok args =>
          rcases hps : parseFlags inp.knownFlag
            (deepCopyInto (applyFields inp.defaults doc) cfg) args with ⟨st, cfg2⟩
          cases st with
          | error e => simp [filePhase, habs, hnl, hlf, hfr, hps]
          | ok u2 =>
            cases hvb : inp.validate cfg2 with
            | error e => simp [filePhase, habs, hnl, hlf, hfr, hps, hvb]
            | ok u3 => simp [filePhase, habs, hnl, hlf, hfr, hps, hvb]

theorem loadConfig_phaseA_first (inp : MergeInput) (cfg : Config) :
    ∃ rest, ((loadConfigFromFile inp cfg).2.2.map Prod.fst) =
        Event.evValidate :: rest ∧
      Event.evValidate ∉ rest.takeWhile (fun ev => ev != Event.evAbs) := by
  cases hv : inp.validate cfg with
  | error e => exact ⟨[], by simp [loadConfigFromFile, hv], by simp⟩
  | ok u =>
    by_cases hp : inp.configFilePath.length > 0
    · refine ⟨((filePhase inp cfg).2.2).map Prod.fst, ?_,
        validate_not_before_abs inp cfg⟩
      simp [loadConfigFromFile, hv, if_pos hp]
    · exact ⟨[], by simp [loadConfigFromFile, hv, if_neg hp], by simp⟩

theorem evRun_not_in_filePhase (inp : MergeInput) (cfg : Config) :
    Event.evRun ∉ (filePhase inp cfg).2.2.map Prod.fst := by
  cases habs : inp.absPath inp.configFilePath with
  | error e => simp [filePhase, habs]
  | ok p =>
    cases hnl : inp.newLoader p with
    | error e => simp [filePhase, habs, hnl]
    | ok u =>
      cases hlf : inp.loadFile p with
      | error e => simp [filePhase, habs, hnl, hlf]
      | ok doc =>
        cases hfr : inp.findRoot inp.allArgs with
        | error e => simp [filePhase, habs, hnl, hlf, hfr]
        | ok args =>
          rcases hps : parseFlags inp.knownFlag
            (deepCopyInto (applyFields inp.defaults doc) cfg) args with ⟨st, cfg2⟩
          cases st with
          | error e => simp [filePhase, habs, hnl, hlf, hfr, hps]
          | ok u2 =>
            cases hvb : inp.validate cfg2 with
            | error e => simp [filePhase, habs, hnl, hlf, hfr, hps, hvb]
            | ok u3 => simp [filePhase, habs, hnl, hlf, hfr, hps, hvb]

theorem evRun_not_in_merge (inp : MergeInput) (cfg : Config) :
    Event.evRun ∉ (loadConfigFromFile inp cfg).2.2.map Prod.fst := by
  cases hv : inp.validate cfg with
  | error e => simp [loadConfigFromFile, hv]
  | ok u =>
    by_cases hp : inp.configFilePath.length > 0
    · have h2 := evRun_not_in_filePhase inp cfg
      simp only [loadConfigFromFile, hv, if_pos hp, List.map_cons, List.mem_cons]
      rintro (h | h)
      · exact Event.noConfusion h
      · exact h2 h
    · simp [loadConfigFromFile, hv, if_neg hp]

/-- Claim C4: in every run of the merge the validation callback is the very
first step, before any path resolution or file access, and it is not invoked
again before the path-resolution step; in a fully successful run with a
non-empty path it is invoked exactly twice, the second time only after the
file overlay and the flag re-parse have both completed (the trace is exactly
validate, abs, loader, load, deep-copy, find, parse, validate). -/
theorem c4_two_phase_validation (inp : MergeInput) (cfg : Config) (p : String)
    (doc args : List (String × String))
    (hpath : inp.configFilePath.length > 0)
    (hv0 : inp.validate cfg = Except.ok ())
    (habs : inp.absPath inp.configFilePath = Except.ok p)
    (hnl : inp.newLoader p = Except.ok ())
    (hlf : inp.loadFile p = Except.ok doc)
    (hfr : inp.findRoot inp.allArgs = Except.ok args)
    (hknown : ∀ kv ∈ args, inp.knownFlag kv.1 = true)
    (hv1 : inp.validate (applyFields (applyFields inp.defaults doc) args) =
      Except.ok ()) :
    (∀ inp9 cfg9, ∃ rest,
      ((loadConfigFromFile inp9 cfg9).2.2.map Prod.fst) = Event.evValidate :: rest ∧
      Event.evValidate ∉ rest.takeWhile (fun ev => ev != Event.evAbs)) ∧
    ((loadConfigFromFile inp cfg).2.2.map Prod.fst =
      [Event.evValidate, Event.evAbs, Event.evNewLoader, Event.evLoadFile,
        Event.evDeepCopy, Event.evFind, Event.evParseFlags, Event.evValidate]) ∧
    ((loadConfigFromFile inp cfg).2.2.map Prod.fst).count Event.evValidate = 2 ∧
    (loadConfigFromFile inp cfg).1 = Except.ok () := by
  have hmain := loadConfig_file_success inp cfg p doc args hpath hv0 habs hnl hlf hfr hknown
  have htr : (loadConfigFromFile inp cfg).2.2.map Prod.fst =
      [Event.evValidate, Event.evAbs, Event.evNewLoader, Event.evLoadFile,
        Event.evDeepCopy, Event.evFind, Event.evParseFlags, Event.evValidate] := by
    rw [hmain]
    rfl
  refine ⟨fun inp9 cfg9 => loadConfig_phaseA_first inp9 cfg9, htr, ?_, ?_⟩
  · rw [htr]
    decide
  · rw [hmain, hv1]

/-- Claim C4 exercised on concrete data: the successful sample run performs
exactly the eight steps in order, with the two validations at the ends. -/
theorem c4_two_phase_validation_witness :
    ((loadConfigFromFile sampleInput emptyCfg).2.2.map Prod.fst =
      [Event.evValidate, Event.evAbs, Event.evNewLoader, Event.evLoadFile,
        Event.evDeepCopy, Event.evFind, Event.evParseFlags, Event.evValidate]) ∧
    ((loadConfigFromFile sampleInput emptyCfg).2.2.map Prod.fst).count
      Event.evValidate = 2 ∧
    (loadConfigFromFile sampleInput emptyCfg).1 = Except.ok () := by
  have h := c4_two_phase_validation sampleInput emptyCfg ("/work/cfg.yaml")
    sampleDoc sampleArgs (by decide) rfl rfl rfl rfl rfl (fun kv _ => rfl) rfl
  exact ⟨h.2.1, h.2.2.1, h.2.2.2⟩

/-- Claim C5: when any step of the merge fails, the RunE action returns that
error to its caller and the run loop is never invoked; the run-loop event
appears in a trace only when the whole merge succeeded. -/
theorem c5_no_run_on_error (inp : MergeInput) (runLoop : Config → Except String Unit)
    (cfg c : Config) (e : String) (t : List (Event × Config))
    (hmerge : loadConfigFromFile inp cfg = (Except.error e, c, t)) :
    runE inp runLoop cfg = (Except.error e, c, t) ∧
    Event.evRun ∉ (runE inp runLoop cfg).2.2.map Prod.fst ∧
    (∀ inp9 rl9 cfg9, Event.evRun ∈ (runE inp9 rl9 cfg9).2.2.map Prod.fst →
      (loadConfigFromFile inp9 cfg9).1 = Except.ok ()) := by
  have h1 : runE inp runLoop cfg = (Except.error e, c, t) := by
    simp [runE, hmerge]
  refine ⟨h1, ?_, ?_⟩
  · rw [h1]
    have h2 := evRun_not_in_merge inp cfg
    rw [hmerge] at h2
    exact h2
  · intro inp9 rl9 cfg9 hmem
    rcases hm : loadConfigFromFile inp9 cfg9 with ⟨st, c9, t9⟩
    cases st with
    | error e9 =>
      exfalso
      have hnot := evRun_not_in_merge inp9 cfg9
      rw [hm] at hnot
      simp only [runE, hm] at hmem
      exact hnot hmem
    | ok u9 =>
      cases u9
      rfl

/-- Claim C5 exercised on concrete data: a failing phase-A validation makes
RunE return the validation error and the run loop never starts. -/
theorem c5_no_run_on_error_witness :
    runE { sampleInput with validate := fun _ => Except.error ("bad flags") }
        (fun _ => Except.ok ()) emptyCfg =
      (Except.error ("bad flags"), emptyCfg, [(Event.evValidate, emptyCfg)]) ∧
    Event.evRun ∉ (runE { sampleInput with validate := fun _ => Except.error ("bad flags") }
        (fun _ => Except.ok ()) emptyCfg).2.2.map Prod.fst := by
  have h := c5_no_run_on_error
    { sampleInput with validate := fun _ => Except.error ("bad flags") }
    (fun _ => Except.ok ()) emptyCfg emptyCfg ("bad flags")
    ([(Event.evValidate, emptyCfg)]) rfl
  exact ⟨h.1, h.2.1⟩

/-- Claim C6: the merge is idempotent.  If a run of loadConfigFromFile from
some initial state succeeds with resolved configuration m, then a second run
with the same inputs starting from m also succeeds and leaves the live
configuration at exactly m: the file-derived object is rebuilt from scratch
and the deep copy erases the starting state, so the second pass recomputes
the same merge. -/
theorem c6_merge_idempotent (inp : MergeInput) (cfg m : Config)
    (tr : List (Event × Config))
    (hrun : loadConfigFromFile inp cfg = (Except.ok (), m, tr)) :
    (loadConfigFromFile inp m).1 = Except.ok () ∧
    (loadConfigFromFile inp m).2.1 = m := by
  have h1 := congrArg Prod.fst hrun
  have h2 := congrArg (fun x => x.2.1) hrun
  simp only at h1 h2
  cases hv : inp.validate cfg with
  | error e => simp [loadConfigFromFile, hv] at h1
  | ok u =>
    cases u
    by_cases hp : inp.configFilePath.length > 0
    · simp only [loadConfigFromFile, hv] at h1 h2
      rw [if_pos hp] at h1 h2
      cases habs : inp.absPath inp.configFilePath with
      | error e => simp [filePhase, habs] at h1
      | ok p =>
        cases hnl : inp.newLoader p with
        | error e => simp [filePhase, habs, hnl] at h1
        | ok u1 =>
          cases u1
          cases hlf : inp.loadFile p with
          | error e => simp [filePhase, habs, hnl, hlf] at h1
          | ok doc =>
            cases hfr : inp.findRoot inp.allArgs with
            | error e => simp [filePhase, habs, hnl, hlf, hfr] at h1
            | ok args =>
              rcases hps : parseFlags inp.knownFlag
                (deepCopyInto (applyFields inp.defaults doc) cfg) args with ⟨st, cfg2⟩
              rw [deepCopyInto] at hps
              cases st with
              | error e =>
                simp [filePhase, habs, hnl, hlf, hfr, deepCopyInto, hps] at h1
              | ok u2 =>
                cases u2
                cases hvb : inp.validate cfg2 with
                | error e =>
                  simp [filePhase, habs, hnl, hlf, hfr, deepCopyInto, hps, hvb] at h1
                | ok u3 =>
                  cases u3
                  have hm : cfg2 = m := by
                    simpa [filePhase, habs, hnl, hlf, hfr, deepCopyInto, hps, hvb] using h2
                  subst hm
                  refine ⟨?_, ?_⟩ <;>
                    simp [loadConfigFromFile, hvb, if_pos hp, filePhase, habs, hnl,
                      hlf, hfr, deepCopyInto, hps]
    · simp only [loadConfigFromFile, hv] at h2
      rw [if_neg hp] at h2
      subst h2
      refine ⟨?_, ?_⟩ <;> simp [loadConfigFromFile, hv, if_neg hp]

/-- Claim C6 exercised on concrete data: rerunning the merge from the sample
run's resolved state reproduces that state. -/
theorem c6_merge_idempotent_witness :
    (loadConfigFromFile sampleInput emptyCfg).1 = Except.ok () ∧
    (loadConfigFromFile sampleInput
        ((loadConfigFromFile sampleInput emptyCfg).2.1)).2.1 =
      (loadConfigFromFile sampleInput emptyCfg).2.1 := by
  refine ⟨rfl, ?_⟩
  exact (c6_merge_idempotent sampleInput emptyCfg
    ((loadConfigFromFile sampleInput emptyCfg).2.1)
    ((loadConfigFromFile sampleInput emptyCfg).2.2) rfl).2

/-- Claim C7: immediately after the deep-copy step the live configuration
object is exactly the file-derived object on every field; the deep copy
fully replaces the live object, so the state at that point does not depend
on anything phase-1 flag parsing had put there. -/
theorem c7_deep_copy_replaces (inp : MergeInput) (cfg : Config) (p : String)
    (doc : List (String × String))
    (hpath : inp.configFilePath.length > 0)
    (hv0 : inp.validate cfg = Except.ok ())
    (habs : inp.absPath inp.configFilePath = Except.ok p)
    (hnl : inp.newLoader p = Except.ok ())
    (hlf : inp.loadFile p = Except.ok doc) :
    (∃ pre post,
      (loadConfigFromFile inp cfg).2.2 =
        pre ++ (Event.evDeepCopy,
          deepCopyInto (applyFields inp.defaults doc) cfg) :: post) ∧
    (∀ f, deepCopyInto (applyFields inp.defaults doc) cfg f =
      applyFields inp.defaults doc f) := by
  refine ⟨?_, fun f => rfl⟩
  cases hfr : inp.findRoot inp.allArgs with
  | error e =>
    refine ⟨[(Event.evValidate, cfg), (Event.evAbs, cfg), (Event.evNewLoader, cfg),
      (Event.evLoadFile, cfg)],
      [(Event.evFind, deepCopyInto (applyFields inp.defaults doc) cfg)], ?_⟩
    simp [loadConfigFromFile, hv0, hpath, filePhase, habs, hnl, hlf, hfr]
  | ok args =>
    rcases hps : parseFlags inp.knownFlag
      (deepCopyInto (applyFields inp.defaults doc) cfg) args with ⟨st, cfg2⟩
    cases st with
    | error e =>
      refine ⟨[(Event.evValidate, cfg), (Event.evAbs, cfg), (Event.evNewLoader, cfg),
        (Event.evLoadFile, cfg)],
        [(Event.evFind, deepCopyInto (applyFields inp.defaults doc) cfg),
          (Event.evParseFlags, cfg2)], ?_⟩
      simp [loadConfigFromFile, hv0, hpath, filePhase, habs, hnl, hlf, hfr, hps]
    | ok u2 =>
      cases hvb : inp.validate cfg2 with
      | error e =>
        refine ⟨[(Event.evValidate, cfg), (Event.evAbs, cfg), (Event.evNewLoader, cfg),
          (Event.evLoadFile, cfg)],
          [(Event.evFind, deepCopyInto (applyFields inp.defaults doc) cfg),
            (Event.evParseFlags, cfg2), (Event.evValidate, cfg2)], ?_⟩
        simp [loadConfigFromFile, hv0, hpath, filePhase, habs, hnl, hlf, hfr, hps, hvb]
      | ok u3 =>
        refine ⟨[(Event.evValidate, cfg), (Event.evAbs, cfg), (Event.evNewLoader, cfg),
          (Event.evLoadFile, cfg)],
          [(Event.evFind, deepCopyInto (applyFields inp.defaults doc) cfg),
            (Event.evParseFlags, cfg2), (Event.evValidate, cfg2)], ?_⟩
        simp [loadConfigFromFile, hv0, hpath, filePhase, habs, hnl, hlf, hfr, hps, hvb]

/-- Claim C7 exercised on concrete data: the sample run's trace contains the
deep-copy step carrying exactly the file-derived object. -/
theorem c7_deep_copy_replaces_witness :
    (∃ pre post,
      (loadConfigFromFile sampleInput emptyCfg).2.2 =
        pre ++ (Event.evDeepCopy,
          deepCopyInto (applyFields sampleInput.defaults sampleDoc) emptyCfg) :: post) ∧
    (∀ f, deepCopyInto (applyFields sampleInput.defaults sampleDoc) emptyCfg f =
      applyFields sampleInput.defaults sampleDoc f) :=
  c7_deep_copy_replaces sampleInput emptyCfg ("/work/cfg.yaml") sampleDoc
    (by decide) rfl rfl rfl rfl

/-- Claim C8: every error from path resolution, loader construction or
loading the configuration file is returned with a message containing both
the supplied config-file path and the underlying cause. -/
theorem c8_error_includes_path_and_cause (inp : MergeInput) (cfg : Config)
    (cause : String)
    (hpath : inp.configFilePath.length > 0)
    (hv0 : inp.validate cfg = Except.ok ())
    (hfail :
      inp.absPath inp.configFilePath = Except.error cause ∨
      (∃ p, inp.absPath inp.configFilePath = Except.ok p ∧
        inp.newLoader p = Except.error cause) ∨
      (∃ p, inp.absPath inp.configFilePath = Except.ok p ∧
        inp.newLoader p = Except.ok () ∧
        inp.loadFile p = Except.error cause)) :
    ∃ pre mid, (loadConfigFromFile inp cfg).1 =
      Except.error (pre ++ inp.configFilePath ++ mid ++ cause) := by
  refine ⟨"failed to load config file ", ", error ", ?_⟩
  rcases hfail with habs | ⟨p, habs, hnl⟩ | ⟨p, habs, hnl, hlf⟩
  · simp [loadConfigFromFile, hv0, hpath, filePhase, habs, fileLoadMsg]
  · simp [loadConfigFromFile, hv0, hpath, filePhase, habs, hnl, fileLoadMsg]
  · simp [loadConfigFromFile, hv0, hpath, filePhase, habs, hnl, hlf, fileLoadMsg]

/-- Claim C8 exercised on concrete data: a failing path resolution yields an
error message carrying the path and the cause. -/
theorem c8_error_includes_path_and_cause_witness :
    ∃ pre mid,
      (loadConfigFromFile { sampleInput with absPath := fun _ => Except.error ("no cwd") }
        emptyCfg).1 =
      Except.error (pre ++
        ({ sampleInput with absPath := fun _ => Except.error ("no cwd") } :
          MergeInput).configFilePath ++ mid ++ "no cwd") :=
  c8_error_includes_path_and_cause
    { sampleInput with absPath := fun _ => Except.error ("no cwd") }
    emptyCfg ("no cwd") (by decide) rfl (Or.inl rfl)

/-- Claim C9: when construction of the default configuration fails, the
command constructor logs the failure and terminates the process with exit
status 1 before any flag registration happens and before any command object
is returned; no error is propagated through a return value. -/
theorem c9_construction_failure_exits (newConfig : Except String Config)
    (e : String) (hfail : newConfig = Except.error e) :
    (newServerCommand newConfig).1 = CommandOutcome.exitedProcess 1 ∧
    SetupStep.stepLogError ∈ (newServerCommand newConfig).2 ∧
    SetupStep.stepAddFlags ∉ (newServerCommand newConfig).2 ∧
    SetupStep.stepAddConfigFlags ∉ (newServerCommand newConfig).2 ∧
    SetupStep.stepSetArgs ∉ (newServerCommand newConfig).2 ∧
    (∀ cfg, (newServerCommand newConfig).1 ≠ CommandOutcome.commandBuilt cfg) := by
  subst hfail
  refine ⟨rfl, ?_, ?_, ?_, ?_, ?_⟩
  · simp [newServerCommand]
  · simp [newServerCommand]
  · simp [newServerCommand]
  · simp [newServerCommand]
  · intro cfg h
    exact CommandOutcome.noConfusion h

/-- Claim C9 exercised on concrete data: a failing configuration constructor
exits with status 1, after logging and without registering flags. -/
theorem c9_construction_failure_exits_witness :
    (newServerCommand (Except.error ("malformed feature gate table"))).1 =
      CommandOutcome.exitedProcess 1 ∧
    SetupStep.stepLogError ∈
      (newServerCommand (Except.error ("malformed feature gate table"))).2 ∧
    SetupStep.stepAddFlags ∉
      (newServerCommand (Except.error ("malformed feature gate table"))).2 ∧
    SetupStep.stepAddConfigFlags ∉
      (newServerCommand (Except.error ("malformed feature gate table"))).2 ∧
    SetupStep.stepSetArgs ∉
      (newServerCommand (Except.error ("malformed feature gate table"))).2 ∧
    (∀ cfg, (newServerCommand (Except.error ("malformed feature gate table"))).1 ≠
      CommandOutcome.commandBuilt cfg) :=
  c9_construction_failure_exits (Except.error ("malformed feature gate table"))
    ("malformed feature gate table") rfl

/-- Claim C10: when locating the root command, re-parsing the flags, or the
phase-B validation fails after the file overlay, loadConfigFromFile returns
the error and the live configuration object is left in the file-overlaid
(and possibly partially re-parsed) state: it equals the file-derived object
with some list of flag assignments applied, independent of the phase-1 state
it held before the overlay, which is not restored. -/
theorem c10_no_rollback_on_late_failure (inp : MergeInput) (cfg : Config)
    (p : String) (doc : List (String × String)) (cause : String)
    (hpath : inp.configFilePath.length > 0)
    (hv0 : inp.validate cfg = Except.ok ())
    (habs : inp.absPath inp.configFilePath = Except.ok p)
    (hnl : inp.newLoader p = Except.ok ())
    (hlf : inp.loadFile p = Except.ok doc)
    (hfail :
      inp.findRoot inp.allArgs = Except.error cause ∨
      (∃ args, inp.findRoot inp.allArgs = Except.ok args ∧
        (parseFlags inp.knownFlag (applyFields inp.defaults doc) args).1 =
          Except.error cause) ∨
      (∃ args, inp.findRoot inp.allArgs = Except.ok args ∧
        (parseFlags inp.knownFlag (applyFields inp.defaults doc) args).1 =
          Except.ok () ∧
        inp.validate (parseFlags inp.knownFlag (applyFields inp.defaults doc) args).2 =
          Except.error cause)) :
    (∃ msg, (loadConfigFromFile inp cfg).1 = Except.error msg) ∧
    (∃ applied, (loadConfigFromFile inp cfg).2.1 =
      applyFields (applyFields inp.defaults doc) applied) := by
  rcases hfail with hfr | ⟨args, hfr, hpe⟩ | ⟨args, hfr, hpe, hvb⟩
  · constructor
    · exact ⟨reparseMsg cause,
        by simp [loadConfigFromFile, hv0, hpath, filePhase, habs, hnl, hlf, hfr]⟩
    · exact ⟨[], by simp [loadConfigFromFile, hv0, hpath, filePhase, habs, hnl,
        hlf, hfr, deepCopyInto, applyFields]⟩
  · rcases hps : parseFlags inp.knownFlag (applyFields inp.defaults doc) args
      with ⟨st, cfg2⟩
    rw [hps] at hpe
    simp only at hpe
    subst hpe
    have hstate := parseFlags_state inp.knownFlag args (applyFields inp.defaults doc)
    rw [hps] at hstate
    simp only at hstate
    constructor
    · exact ⟨reparseMsg cause, by simp [loadConfigFromFile, hv0, hpath, filePhase,
        habs, hnl, hlf, hfr, deepCopyInto, hps]⟩
    · exact ⟨args.takeWhile (fun kv => inp.knownFlag kv.1),
        by simp [loadConfigFromFile, hv0, hpath, filePhase, habs, hnl, hlf, hfr,
          deepCopyInto, hps, hstate]⟩
  · rcases hps : parseFlags inp.knownFlag (applyFields inp.defaults doc) args
      with ⟨st, cfg2⟩
    rw [hps] at hpe hvb
    simp only at hpe hvb
    subst hpe
    have hstate := parseFlags_state inp.knownFlag args (applyFields inp.defaults doc)
    rw [hps] at hstate
    simp only at hstate
    constructor
    · exact ⟨cause, by simp [loadConfigFromFile, hv0, hpath, filePhase,
        habs, hnl, hlf, hfr, deepCopyInto, hps, hvb]⟩
    · refine ⟨args.takeWhile (fun kv => inp.knownFlag kv.1), ?_⟩
      have hred : (loadConfigFromFile inp cfg).2.1 = cfg2 := by
        simp [loadConfigFromFile, hv0, hpath, filePhase, habs, hnl, hlf, hfr,
          deepCopyInto, hps, hvb]
      rw [hred, hstate]

/-- Claim C10 exercised on concrete data: a failing root-command lookup
leaves the live object equal to the file-derived object, not the phase-1
state. -/
theorem c10_no_rollback_on_late_failure_witness :
    (∃ msg, (loadConfigFromFile
      { sampleInput with findRoot := fun _ => Except.error ("no root command") }
      emptyCfg).1 = Except.error msg) ∧
    (∃ applied, (loadConfigFromFile
      { sampleInput with findRoot := fun _ => Except.error ("no root command") }
      emptyCfg).2.1 =
      applyFields (applyFields
        ({ sampleInput with findRoot := fun _ => Except.error ("no root command") } :
          MergeInput).defaults sampleDoc) applied) :=
  c10_no_rollback_on_late_failure
    { sampleInput with findRoot := fun _ => Except.error ("no root command") }
    emptyCfg ("/work/cfg.yaml") sampleDoc ("no root command")
    (by decide) rfl rfl rfl rfl (Or.inl rfl)
